import Mathlib

/-!
Shallow embedding of the format-detection and normalization dispatcher of
guetzli-cuda-opencl (src/guetzli/guetzli.cc): alpha compositing, the
memory-admission gate, the PNG/TIFF pixel decoders' channel dispatch, and
the three-probe dispatcher of main. External libraries (libpng, libtiff,
the guetzli encoder, the JPEG header parser) appear as oracle parameters;
everything written in guetzli.cc itself is embedded from the source.
-/

namespace Guetzli

/-- Constant kBytesPerPixel = 110 (guetzli.cc line 45). -/
def kBytesPerPixel : Nat := 110

/-- Constant kLowestMemusageMB = 100 (guetzli.cc line 46). -/
def kLowestMemusageMB : Int := 100

/-- Constant kDefaultMemlimitMB = 6000 (guetzli.cc line 48). -/
def kDefaultMemlimitMB : Int := 6000

/-- Embedding of BlendOnBlack (guetzli.cc lines 67-69):
return (int(val) * int(alpha) + 128) / 255, computed in int (here Nat,
both operands nonnegative so C truncating division is Nat division) and
then implicitly converted to uint8_t, which is reduction mod 256. -/
def BlendOnBlack (val alpha : Nat) : Nat :=
  ((val * alpha + 128) / 255) % 256

/-- Embedding of BlendOnWhite (guetzli.cc lines 70-73):
if (alpha < 1) return 255 - ((int(val) * int(alpha) + 128) / 255);
return val. The int result is converted to uint8_t (mod 256); in the
first branch alpha = 0 so the subtrahend is 128 / 255 = 0 and the int
subtraction never goes negative, so Nat subtraction is faithful. -/
def BlendOnWhite (val alpha : Nat) : Nat :=
  if alpha < 1 then (255 - ((val * alpha + 128) / 255)) % 256
  else val % 256

/-- Embedding of Blend (guetzli.cc lines 74-76): selects BlendOnBlack or
BlendOnWhite by the process-wide flag blendOnBlack (default true), here
threaded as an explicit parameter. -/
def Blend (blendOnBlack : Bool) (val alpha : Nat) : Nat :=
  if blendOnBlack then BlendOnBlack val alpha else BlendOnWhite val alpha

/-- Embedding of the memory-admission gate as it appears on the PNG path
(guetzli.cc lines 201-207): double pixels = xsize * ysize; reject iff
memlimit_mb != -1 && (pixels * kBytesPerPixel / (1 << 20) > memlimit_mb
|| memlimit_mb < kLowestMemusageMB). The double comparison
pixels * 110 / 1048576 > memlimit_mb is exact real arithmetic on these
values; it is embedded as the equivalent cross-multiplied integer
comparison xsize * ysize * 110 > memlimit_mb * 1048576 (1048576 > 0
preserves the ordering), which keeps the predicate kernel-computable. -/
def pngMemReject (xsize ysize : Nat) (memlimit_mb : Int) : Bool :=
  decide (memlimit_mb ≠ -1 ∧
    ((xsize * ysize * kBytesPerPixel : Int) > memlimit_mb * 1048576 ∨
      memlimit_mb < kLowestMemusageMB))

/-- Embedding of the memory-admission gate as it appears on the TIFF path
(guetzli.cc lines 396-402), textually identical to the PNG site. -/
def tiffMemReject (xsize ysize : Nat) (memlimit_mb : Int) : Bool :=
  decide (memlimit_mb ≠ -1 ∧
    ((xsize * ysize * kBytesPerPixel : Int) > memlimit_mb * 1048576 ∨
      memlimit_mb < kLowestMemusageMB))

/-- Embedding of the memory-admission gate as it appears on the JPEG path
(guetzli.cc lines 437-443), textually identical to the PNG site, applied
to the dimensions from the JPEG header. -/
def jpegMemReject (width height : Nat) (memlimit_mb : Int) : Bool :=
  decide (memlimit_mb ≠ -1 ∧
    ((width * height * kBytesPerPixel : Int) > memlimit_mb * 1048576 ∨
      memlimit_mb < kLowestMemusageMB))

/-- Row-major buffer of one pixel row: the bytes produced for pixels
x = 0 .. w-1, concatenated. Models one iteration of the inner x loop of
the decoders, which writes the 3 bytes of pixel x at offsets 3x..3x+2 of
the row, each position exactly once. -/
def rowBuf (w : Nat) (pix : Nat → List Nat) : List Nat :=
  (List.range w).flatMap pix

/-- Row-major image buffer: rows y = 0 .. h-1 concatenated. Models the
outer y loop of the decoders, which writes row y starting at offset
3 * y * w of the rgb vector (resized to 3*w*h up front), covering every
position exactly once. -/
def imgBuf (w h : Nat) (pix : Nat → Nat → List Nat) : List Nat :=
  (List.range h).flatMap fun y => rowBuf w (pix y)

/-- Embedding of PngProcessor::ReadPNG after the libpng decode
(guetzli.cc lines 123-186). The libpng outputs are parameters: the
decoded channel count, dimensions, and row y byte i as row y i. The
switch on the channel count produces the rgb buffer (cases 1, 2, 3, 4 at
lines 129-179); any other channel count hits the default case at
line 180 and ReadPNG returns false, embedded as none. The memcpy of
case 3 copies bytes 3x, 3x+1, 3x+2 of the source row into the same
offsets of the output row. -/
def ReadPNG (blendOnBlack : Bool) (components xsize ysize : Nat)
    (row : Nat → Nat → Nat) : Option (List Nat) :=
  match components with
  | 1 => some (imgBuf xsize ysize fun y x =>
      let gray := row y x
      [gray, gray, gray])
  | 2 => some (imgBuf xsize ysize fun y x =>
      let gray := Blend blendOnBlack (row y (2 * x)) (row y (2 * x + 1))
      [gray, gray, gray])
  | 3 => some (imgBuf xsize ysize fun y x =>
      [row y (3 * x), row y (3 * x + 1), row y (3 * x + 2)])
  | 4 => some (imgBuf xsize ysize fun y x =>
      let alpha := row y (4 * x + 3)
      [Blend blendOnBlack (row y (4 * x)) alpha,
        Blend blendOnBlack (row y (4 * x + 1)) alpha,
        Blend blendOnBlack (row y (4 * x + 2)) alpha])
  | _ => none

/-- Embedding of TiffProcessor::ReadTIFF after TIFFReadRGBAImageOriented
succeeds (guetzli.cc lines 345-375). The parameters are the width and
height tags, the samples-per-pixel tag (components), and the raw decoded
buffer viewed bytewise: pixels i is byte i of the uint32 RGBA array, so
pixel (y,x) occupies bytes 4*(y*w+x) .. 4*(y*w+x)+3. When components is
not 4 the first three bytes of each pixel are copied (lines 350-361);
when components is 4 each of the first three bytes is blended against
the byte pixel[4], which is byte 4*(y*w+x)+4 — the first byte of the
NEXT pixel, exactly as the source reads it (line 368). -/
def ReadTIFF (blendOnBlack : Bool) (components xsize ysize : Nat)
    (pixels : Nat → Nat) : List Nat :=
  if components ≠ 4 then
    imgBuf xsize ysize fun y x =>
      [pixels (4 * (y * xsize + x)), pixels (4 * (y * xsize + x) + 1),
        pixels (4 * (y * xsize + x) + 2)]
  else
    imgBuf xsize ysize fun y x =>
      let alpha := pixels (4 * (y * xsize + x) + 4)
      [Blend blendOnBlack (pixels (4 * (y * xsize + x))) alpha,
        Blend blendOnBlack (pixels (4 * (y * xsize + x) + 1)) alpha,
        Blend blendOnBlack (pixels (4 * (y * xsize + x) + 2)) alpha]

/-- Embedding of enum ProcessResult (guetzli.cc lines 55-59), keeping the
source's spelling Sucess. -/
inductive ProcessResult
  | NotSupported
  | ProcessFailed
  | Sucess
deriving DecidableEq

/-- kPNGMagicBytes (guetzli.cc lines 190-192):
89 'P' 'N' 'G' CR LF 1A LF. -/
def kPNGMagicBytes : List Nat :=
  [0x89, 0x50, 0x4E, 0x47, 0x0D, 0x0A, 0x1A, 0x0A]

/-- PNG signature test of PngProcessor::Process (guetzli.cc lines
193-194): size >= 8 and the first 8 bytes equal kPNGMagicBytes. -/
def pngSigMatch (in_data : List Nat) : Bool :=
  decide (8 ≤ in_data.length ∧ in_data.take 8 = kPNGMagicBytes)

/-- TIFF byte-order marker test of TiffProcessor::Process (guetzli.cc
lines 383-388): size >= 2 and the first 2 bytes equal TIFF_BIGENDIAN
0x4D4D (bytes 4D 4D) or TIFF_LITTLEENDIAN 0x4949 (bytes 49 49); both
markers are byte palindromes so host byte order cannot matter. -/
def tiffSigMatch (in_data : List Nat) : Bool :=
  decide (2 ≤ in_data.length ∧
    (in_data.take 2 = [0x4D, 0x4D] ∨ in_data.take 2 = [0x49, 0x49]))

/-- Output of the external libpng decode feeding ReadPNG: dimensions,
channel count and row bytes. The oracle returns none for any libpng-level
failure (context creation or the setjmp error path, guetzli.cc lines
85-99). -/
structure PngDecoded where
  width : Nat
  height : Nat
  channels : Nat
  row : Nat → Nat → Nat

/-- Output of TIFFClientOpen, the tag reads and
TIFFReadRGBAImageOriented: width, height, samples-per-pixel and the byte
view of the decoded RGBA buffer. The oracle returns none when
TIFFClientOpen or the RGBA read fails (guetzli.cc lines 320-343). -/
structure TiffDecoded where
  width : Nat
  height : Nat
  components : Nat
  bytes : Nat → Nat

/-- Embedding of PngProcessor::Process (guetzli.cc lines 188-226): magic
mismatch is NotSupported; then ReadPNG failure, a memory-gate rejection
or a guetzli::Process (encode oracle) failure each yield ProcessFailed,
and otherwise Sucess. -/
def PngProcess (blendOnBlack : Bool) (memlimit_mb : Int)
    (libpng : List Nat → Option PngDecoded)
    (encode : List Nat → Nat → Nat → Option (List Nat))
    (in_data : List Nat) : ProcessResult :=
  if pngSigMatch in_data then
    match libpng in_data with
    | none => ProcessResult.ProcessFailed
    | some d =>
      match ReadPNG blendOnBlack d.channels d.width d.height d.row with
      | none => ProcessResult.ProcessFailed
      | some rgb =>
        if pngMemReject d.width d.height memlimit_mb then
          ProcessResult.ProcessFailed
        else
          match encode rgb d.width d.height with
          | none => ProcessResult.ProcessFailed
          | some _ => ProcessResult.Sucess
  else ProcessResult.NotSupported

/-- Embedding of TiffProcessor::Process (guetzli.cc lines 381-423):
marker mismatch is NotSupported; then libtiff failure, a memory-gate
rejection or an encode failure each yield ProcessFailed, otherwise
Sucess. ReadTIFF itself cannot fail once the RGBA read succeeded. -/
def TiffProcess (blendOnBlack : Bool) (memlimit_mb : Int)
    (libtiff : List Nat → Option TiffDecoded)
    (encode : List Nat → Nat → Nat → Option (List Nat))
    (in_data : List Nat) : ProcessResult :=
  if tiffSigMatch in_data then
    match libtiff in_data with
    | none => ProcessResult.ProcessFailed
    | some d =>
      if tiffMemReject d.width d.height memlimit_mb then
        ProcessResult.ProcessFailed
      else
        match encode (ReadTIFF blendOnBlack d.components d.width d.height d.bytes)
            d.width d.height with
        | none => ProcessResult.ProcessFailed
        | some _ => ProcessResult.Sucess
  else ProcessResult.NotSupported

/-- Embedding of JpegProcessor::Process (guetzli.cc lines 429-461): a
failed header-only parse (guetzli::ReadJpeg oracle) is NotSupported; a
memory-gate rejection on the header dimensions or an encode failure is
ProcessFailed, otherwise Sucess. -/
def JpegProcess (memlimit_mb : Int)
    (readJpegHeader : List Nat → Option (Nat × Nat))
    (encode : List Nat → Option (List Nat))
    (in_data : List Nat) : ProcessResult :=
  match readJpegHeader in_data with
  | none => ProcessResult.NotSupported
  | some wh =>
    if jpegMemReject wh.1 wh.2 memlimit_mb then ProcessResult.ProcessFailed
    else
      match encode in_data with
      | none => ProcessResult.ProcessFailed
      | some _ => ProcessResult.Sucess

/-- Embedding of the probe loop of main (guetzli.cc lines 678-686): try
each processor in order and stop at the first result other than
NotSupported; none means every probe reported NotSupported. -/
def tryProcessors : List (List Nat → ProcessResult) → List Nat →
    Option ProcessResult
  | [], _ => none
  | p :: rest, in_data =>
    match p in_data with
    | ProcessResult.NotSupported => tryProcessors rest in_data
    | r => some r

/-- Exit code of main after the probe loop (guetzli.cc lines 688-698):
processed is true exactly when the stopping result was Sucess (output is
written, main returns 0); otherwise the unknown-file-format message is
printed and main returns 2. -/
def mainExitCode (processors : List (List Nat → ProcessResult))
    (in_data : List Nat) : Nat :=
  match tryProcessors processors in_data with
  | some ProcessResult.Sucess => 0
  | _ => 2

/-- Example PNG row oracle used by concrete witnesses: row y, byte i is
10 * y + i. -/
def exRow : Nat → Nat → Nat := fun y i => 10 * y + i

/-- Example decoded-TIFF byte buffer used by concrete witnesses: two
RGBA pixels, [200, 100, 50, 0, 7, 7, 7, 255]; pixel 0 has alpha 0 in its
4th byte, and byte 4 (the next pixel's red sample) is 7. -/
def exTiffBytes : Nat → Nat := fun i =>
  [200, 100, 50, 0, 7, 7, 7, 255].getD i 0

/-- All-zero 16-byte buffer, the unknown-format example input. -/
def exZeroBuf : List Nat := List.replicate 16 0

end Guetzli

namespace Guetzli

theorem rowBuf_succ (w : Nat) (pix : Nat → List Nat) :
    rowBuf (w + 1) pix = rowBuf w pix ++ pix w := by
  simp [rowBuf, List.range_succ]

theorem rowBuf_length (w : Nat) (pix : Nat → List Nat)
    (hl : ∀ x, (pix x).length = 3) :
    (rowBuf w pix).length = 3 * w := by
  induction w with
  | zero => simp [rowBuf]
  | succ n ih =>
    rw [rowBuf_succ]
    simp [ih, hl]
    omega

theorem rowBuf_get (w x c : Nat) (pix : Nat → List Nat)
    (hl : ∀ x, (pix x).length = 3) (hx : x < w) (hc : c < 3) :
    (rowBuf w pix).getD (3 * x + c) 0 = (pix x).getD c 0 := by
  induction w with
  | zero => omega
  | succ n ih =>
    rw [rowBuf_succ]
    rcases Nat.lt_or_ge x n with h | h
    · rw [List.getD_append _ _ _ _ (by rw [rowBuf_length n pix hl]; omega)]
      exact ih h
    · have hx' : n = x := by omega
      subst hx'
      rw [List.getD_append_right _ _ _ _ (by rw [rowBuf_length n pix hl]; omega)]
      rw [rowBuf_length n pix hl]
      congr 1
      omega

theorem imgBuf_succ (w h : Nat) (pix : Nat → Nat → List Nat) :
    imgBuf w (h + 1) pix = imgBuf w h pix ++ rowBuf w (pix h) := by
  simp [imgBuf, List.range_succ]

theorem imgBuf_length (w h : Nat) (pix : Nat → Nat → List Nat)
    (hl : ∀ y x, (pix y x).length = 3) :
    (imgBuf w h pix).length = 3 * (w * h) := by
  induction h with
  | zero => simp [imgBuf]
  | succ n ih =>
    rw [imgBuf_succ, List.length_append, ih, rowBuf_length _ _ (hl n)]
    ring

theorem imgBuf_get (w h y x c : Nat) (pix : Nat → Nat → List Nat)
    (hl : ∀ y x, (pix y x).length = 3) (hy : y < h) (hx : x < w) (hc : c < 3) :
    (imgBuf w h pix).getD (3 * (y * w + x) + c) 0 = (pix y x).getD c 0 := by
  induction h with
  | zero => omega
  | succ n ih =>
    rw [imgBuf_succ]
    rcases Nat.lt_or_ge y n with hlt | hge
    · have h1 : y * w + x < (y + 1) * w := by
        have := Nat.add_lt_add_left hx (y * w)
        simpa [Nat.succ_mul] using this
      have h2 : (y + 1) * w ≤ n * w := Nat.mul_le_mul_right w (by omega)
      have h3 : y * w + x < w * n := by
        rw [Nat.mul_comm w n]; exact Nat.lt_of_lt_of_le h1 h2
      rw [List.getD_append _ _ _ _ (by
        rw [imgBuf_length _ _ _ hl]; linarith)]
      exact ih hlt
    · have hy' : n = y := by omega
      subst hy'
      have heq : 3 * (n * w + x) + c = 3 * (w * n) + (3 * x + c) := by ring
      rw [List.getD_append_right _ _ _ _ (by
        rw [imgBuf_length _ _ _ hl]; linarith)]
      rw [imgBuf_length _ _ _ hl, heq, Nat.add_sub_cancel_left]
      exact rowBuf_get w x c (pix n) (hl n) hx hc

/-- C6: BlendOnBlack is (sample*alpha+128)/255; it lies in [0, sample]
for all alpha in [0,255], is 0 at alpha = 0 and sample at alpha = 255. -/
theorem blendOnBlack_bounds (val alpha : Nat)
    (hv : val ≤ 255) (ha : alpha ≤ 255) :
    BlendOnBlack val alpha = (val * alpha + 128) / 255 ∧
    0 ≤ BlendOnBlack val alpha ∧
    BlendOnBlack val alpha ≤ val ∧
    BlendOnBlack val 0 = 0 ∧
    BlendOnBlack val 255 = val := by
  have hfull : (val * 255 + 128) / 255 = val := by
    rw [Nat.mul_comm, Nat.add_comm, Nat.add_mul_div_left _ _ (by norm_num)]
    norm_num
  have hle : (val * alpha + 128) / 255 ≤ val := by
    calc (val * alpha + 128) / 255 ≤ (val * 255 + 128) / 255 :=
          Nat.div_le_div_right (by
            have := Nat.mul_le_mul_left val ha
            omega)
      _ = val := hfull
  have hmod : (val * alpha + 128) / 255 % 256 = (val * alpha + 128) / 255 :=
    Nat.mod_eq_of_lt (by omega)
  refine ⟨by simpa [BlendOnBlack] using hmod, Nat.zero_le _, ?_, ?_, ?_⟩
  · simpa [BlendOnBlack, hmod] using hle
  · simp [BlendOnBlack]
  · simp [BlendOnBlack, hfull, Nat.mod_eq_of_lt (by omega : val < 256)]

/-- Witness for blendOnBlack_bounds at val = 200, alpha = 100. -/
theorem blendOnBlack_bounds_witness :
    (200 : Nat) ≤ 255 ∧ (100 : Nat) ≤ 255 ∧
    (BlendOnBlack 200 100 = (200 * 100 + 128) / 255 ∧
      0 ≤ BlendOnBlack 200 100 ∧
      BlendOnBlack 200 100 ≤ 200 ∧
      BlendOnBlack 200 0 = 0 ∧
      BlendOnBlack 200 255 = 200) :=
  ⟨by decide, by decide, blendOnBlack_bounds 200 100 (by decide) (by decide)⟩

/-- C7: BlendOnWhite returns 255 at alpha = 0 and the sample unchanged at
alpha = 255. -/
theorem blendOnWhite_endpoints (val : Nat) (hv : val ≤ 255) :
    BlendOnWhite val 0 = 255 ∧ BlendOnWhite val 255 = val := by
  constructor
  · simp [BlendOnWhite]
  · simp [BlendOnWhite, Nat.mod_eq_of_lt (by omega : val < 256)]

/-- Witness for blendOnWhite_endpoints at val = 200. -/
theorem blendOnWhite_endpoints_witness :
    (200 : Nat) ≤ 255 ∧ (BlendOnWhite 200 0 = 255 ∧ BlendOnWhite 200 255 = 200) :=
  ⟨by decide, blendOnWhite_endpoints 200 (by decide)⟩

/-- C1 counterexample: at sample = 0, alpha = 128 (strictly between 0 and
255) BlendOnWhite returns 0, not 255 - ((0*128+128)/255) = 255 as the
claim states. -/
theorem blendOnWhite_formula_cex :
    ¬ BlendOnWhite 0 128 = 255 - ((0 * 128 + 128) / 255) := by decide

/-- C1 amended: for alpha strictly between 0 and 255 BlendOnWhite returns
the sample unchanged; the 255 - ((sample*alpha+128)/255) expression is
evaluated only in the alpha < 1 branch. -/
theorem blendOnWhite_interior (val alpha : Nat) (hv : val ≤ 255)
    (h0 : 0 < alpha) (h255 : alpha < 255) :
    BlendOnWhite val alpha = val := by
  simp [BlendOnWhite, Nat.not_lt_of_le h0, Nat.mod_eq_of_lt (by omega : val < 256)]

/-- Witness for blendOnWhite_interior at val = 7, alpha = 128. -/
theorem blendOnWhite_interior_witness :
    (7 : Nat) ≤ 255 ∧ (0 : Nat) < 128 ∧ (128 : Nat) < 255 ∧
      BlendOnWhite 7 128 = 7 :=
  ⟨by decide, by decide, by decide,
    blendOnWhite_interior 7 128 (by decide) (by decide) (by decide)⟩

/-- C3: for a finite ceiling the gate rejects exactly when
width * height * 110 / (1 shl 20) exceeds the ceiling (exact rational
arithmetic) or the ceiling is below the 100 MB floor; width = 10000,
height = 10000 with ceiling 100 is rejected; and the PNG, TIFF and JPEG
sites apply the identical predicate. -/
theorem admissionGate_spec (w h : Nat) (m : Int) (hm : m ≠ -1) :
    (pngMemReject w h m = true ↔
      ((w : ℚ) * h * 110 / 2 ^ 20 > (m : ℚ) ∨ m < 100)) ∧
    pngMemReject 10000 10000 100 = true ∧
    (∀ w2 h2 : Nat, ∀ m2 : Int,
      pngMemReject w2 h2 m2 = tiffMemReject w2 h2 m2 ∧
      tiffMemReject w2 h2 m2 = jpegMemReject w2 h2 m2) := by
  refine ⟨?_, by decide, fun w2 h2 m2 => ⟨rfl, rfl⟩⟩
  have key : ((w : ℤ) * h * kBytesPerPixel > m * 1048576) ↔
      ((w : ℚ) * h * 110 / 2 ^ 20 > (m : ℚ)) := by
    rw [gt_iff_lt, gt_iff_lt, lt_div_iff₀ (by norm_num : (0:ℚ) < 2 ^ 20)]
    have hcast : ((m : ℚ) * 2 ^ 20 < (w : ℚ) * h * 110) ↔
        (((m * 1048576 : ℤ) : ℚ) < (((w : ℤ) * h * kBytesPerPixel : ℤ) : ℚ)) := by
      simp only [kBytesPerPixel]
      push_cast
      norm_num
    rw [hcast, Int.cast_lt]
  simp only [pngMemReject, kLowestMemusageMB, decide_eq_true_eq, hm, ne_eq,
    not_false_iff, true_and]
  rw [key]

/-- Witness for admissionGate_spec at w = 10000, h = 10000, m = 100. -/
theorem admissionGate_spec_witness :
    (100 : Int) ≠ -1 ∧ pngMemReject 10000 10000 100 = true :=
  ⟨by decide, (admissionGate_spec 10000 10000 100 (by decide)).2.1⟩

/-- C10: with the unlimited sentinel -1 the gate admits every image: no
dimensions are ever rejected, even though -1 is below the
kLowestMemusageMB floor, so the floor check is skipped as well. -/
theorem unlimited_sentinel_admits (w h : Nat) :
    pngMemReject w h (-1) = false ∧
    tiffMemReject w h (-1) = false ∧
    jpegMemReject w h (-1) = false ∧
    (-1 : Int) < kLowestMemusageMB := by
  refine ⟨?_, ?_, ?_, by decide⟩ <;>
    simp [pngMemReject, tiffMemReject, jpegMemReject]

/-- C5: every buffer produced by the PNG channel dispatch or by the TIFF
pixel copy/blend loops has length exactly 3 * width * height. -/
theorem decoded_buffer_length (blendOnBlack : Bool) (components w h : Nat)
    (row : Nat → Nat → Nat) (pixels : Nat → Nat) (rgb : List Nat)
    (hpng : ReadPNG blendOnBlack components w h row = some rgb) :
    rgb.length = 3 * (w * h) ∧
    (ReadTIFF blendOnBlack components w h pixels).length = 3 * (w * h) := by
  constructor
  · rcases components with _ | _ | _ | _ | _ | n
    · simp [ReadPNG] at hpng
    · simp only [ReadPNG, Option.some.injEq] at hpng
      rw [← hpng]
      apply imgBuf_length
      intro y x
      rfl
    · simp only [ReadPNG, Option.some.injEq] at hpng
      rw [← hpng]
      apply imgBuf_length
      intro y x
      rfl
    · simp only [ReadPNG, Option.some.injEq] at hpng
      rw [← hpng]
      apply imgBuf_length
      intro y x
      rfl
    · simp only [ReadPNG, Option.some.injEq] at hpng
      rw [← hpng]
      apply imgBuf_length
      intro y x
      rfl
    · simp [ReadPNG] at hpng
  · rw [ReadTIFF]
    split
    · exact imgBuf_length _ _ _ (fun y x => rfl)
    · exact imgBuf_length _ _ _ (fun y x => rfl)

/-- Witness for decoded_buffer_length on a 2 x 1 three-channel image. -/
theorem decoded_buffer_length_witness :
    ReadPNG true 3 2 1 exRow = some ((ReadPNG true 3 2 1 exRow).getD []) ∧
    ((ReadPNG true 3 2 1 exRow).getD []).length = 3 * (2 * 1) ∧
    (ReadTIFF true 3 2 1 exTiffBytes).length = 3 * (2 * 1) :=
  ⟨rfl,
    (decoded_buffer_length true 3 2 1 exRow exTiffBytes _ rfl).1,
    (decoded_buffer_length true 3 2 1 exRow exTiffBytes _ rfl).2⟩

/-- C8: the PNG channel dispatch accepts exactly channel counts 1, 2, 3
and 4 (anything else is a decode error), and byte c of output pixel
(y, x) is: the replicated gray sample (1 channel); the blend of the gray
sample with the second channel as alpha, replicated (2 channels); the
direct copy (3 channels); the blend of channel c with the 4th channel as
alpha (4 channels). -/
theorem readPNG_channels_spec (blendOnBlack : Bool) (w h y x c : Nat)
    (row : Nat → Nat → Nat) (hy : y < h) (hx : x < w) (hc : c < 3) :
    (∀ components, (ReadPNG blendOnBlack components w h row).isSome ↔
      (components = 1 ∨ components = 2 ∨ components = 3 ∨ components = 4)) ∧
    ((ReadPNG blendOnBlack 1 w h row).getD []).getD (3 * (y * w + x) + c) 0
      = row y x ∧
    ((ReadPNG blendOnBlack 2 w h row).getD []).getD (3 * (y * w + x) + c) 0
      = Blend blendOnBlack (row y (2 * x)) (row y (2 * x + 1)) ∧
    ((ReadPNG blendOnBlack 3 w h row).getD []).getD (3 * (y * w + x) + c) 0
      = row y (3 * x + c) ∧
    ((ReadPNG blendOnBlack 4 w h row).getD []).getD (3 * (y * w + x) + c) 0
      = Blend blendOnBlack (row y (4 * x + c)) (row y (4 * x + 3)) := by
  refine ⟨?_, ?_, ?_, ?_, ?_⟩
  · intro components
    rcases components with _ | _ | _ | _ | _ | n <;> simp [ReadPNG]
  · simp only [ReadPNG, Option.getD_some]
    rw [imgBuf_get w h y x c
      (fun y x => let gray := row y x; [gray, gray, gray])
      (fun y x => rfl) hy hx hc]
    rcases c with _ | _ | _ | c
    · simp
    · simp
    · simp
    · omega
  · simp only [ReadPNG, Option.getD_some]
    rw [imgBuf_get w h y x c
      (fun y x =>
        let gray := Blend blendOnBlack (row y (2 * x)) (row y (2 * x + 1))
        [gray, gray, gray])
      (fun y x => rfl) hy hx hc]
    rcases c with _ | _ | _ | c
    · simp
    · simp
    · simp
    · omega
  · simp only [ReadPNG, Option.getD_some]
    rw [imgBuf_get w h y x c
      (fun y x => [row y (3 * x), row y (3 * x + 1), row y (3 * x + 2)])
      (fun y x => rfl) hy hx hc]
    rcases c with _ | _ | _ | c
    · simp
    · simp
    · simp
    · omega
  · simp only [ReadPNG, Option.getD_some]
    rw [imgBuf_get w h y x c
      (fun y x =>
        let alpha := row y (4 * x + 3)
        [Blend blendOnBlack (row y (4 * x)) alpha,
          Blend blendOnBlack (row y (4 * x + 1)) alpha,
          Blend blendOnBlack (row y (4 * x + 2)) alpha])
      (fun y x => rfl) hy hx hc]
    rcases c with _ | _ | _ | c
    · simp
    · simp
    · simp
    · omega

/-- Witness for readPNG_channels_spec at w = h = 1, y = x = c = 0. -/
theorem readPNG_channels_spec_witness :
    (0 : Nat) < 1 ∧ (0 : Nat) < 3 ∧
    ((ReadPNG true 1 1 1 exRow).getD []).getD (3 * (0 * 1 + 0) + 0) 0
      = exRow 0 0 ∧
    ((ReadPNG true 4 1 1 exRow).getD []).getD (3 * (0 * 1 + 0) + 0) 0
      = Blend true (exRow 0 (4 * 0 + 0)) (exRow 0 (4 * 0 + 3)) :=
  ⟨by decide, by decide,
    (readPNG_channels_spec true 1 1 0 0 0 exRow (by decide) (by decide)
      (by decide)).2.1,
    (readPNG_channels_spec true 1 1 0 0 0 exRow (by decide) (by decide)
      (by decide)).2.2.2.2⟩

/-- C2 is violated by the code: in the 4-samples-per-pixel TIFF loop the
alpha is read as pixel[4], byte 4*(y*w+x)+4, which is the first byte of
the NEXT pixel, not the 4th byte (index 3) of the same pixel. On the
buffer exTiffBytes (pixel 0 alpha byte = 0, following byte = 7) output
byte 0 is BlendOnBlack 200 7 = 5, while compositing against the pixel's
own alpha 0 would give 0. -/
theorem readTIFF_alpha_offset_bug :
    (ReadTIFF true 4 2 1 exTiffBytes).getD 0 0
      = BlendOnBlack (exTiffBytes 0) (exTiffBytes 4) ∧
    exTiffBytes 4 ≠ exTiffBytes 3 ∧
    ¬ (ReadTIFF true 4 2 1 exTiffBytes).getD 0 0
      = BlendOnBlack (exTiffBytes 0) (exTiffBytes 3) := by decide

theorem tryProcessors_cons_of_ne (p : List Nat → ProcessResult)
    (rest : List (List Nat → ProcessResult)) (in_data : List Nat)
    (hne : p in_data ≠ ProcessResult.NotSupported) :
    tryProcessors (p :: rest) in_data = some (p in_data) := by
  rcases hp : p in_data with _ | _ | _
  · exact absurd hp hne
  · simp [tryProcessors, hp]
  · simp [tryProcessors, hp]

theorem tryProcessors_cons_notSupported (p : List Nat → ProcessResult)
    (rest : List (List Nat → ProcessResult)) (in_data : List Nat)
    (hp : p in_data = ProcessResult.NotSupported) :
    tryProcessors (p :: rest) in_data = tryProcessors rest in_data := by
  simp [tryProcessors, hp]

/-- C4: a buffer whose first 8 bytes are the PNG signature is claimed by
the PNG probe: the dispatch result is the PNG processor's result whatever
the TIFF and JPEG processors would say (they are never consulted), that
result is never NotSupported, and when the decode fails (libpng failure
or unsupported channel count) it is ProcessFailed. -/
theorem png_signature_dispatch (blendOnBlack : Bool) (memlimit_mb : Int)
    (libpng : List Nat → Option PngDecoded)
    (encode : List Nat → Nat → Nat → Option (List Nat))
    (tiffP jpegP : List Nat → ProcessResult) (in_data : List Nat)
    (hlen : 8 ≤ in_data.length) (hsig : in_data.take 8 = kPNGMagicBytes) :
    tryProcessors
        [PngProcess blendOnBlack memlimit_mb libpng encode, tiffP, jpegP]
        in_data
      = some (PngProcess blendOnBlack memlimit_mb libpng encode in_data) ∧
    PngProcess blendOnBlack memlimit_mb libpng encode in_data
      ≠ ProcessResult.NotSupported ∧
    ((libpng in_data = none ∨
        ∃ d, libpng in_data = some d ∧
          ReadPNG blendOnBlack d.channels d.width d.height d.row = none) →
      PngProcess blendOnBlack memlimit_mb libpng encode in_data
        = ProcessResult.ProcessFailed) := by
  have hmatch : pngSigMatch in_data = true := by
    simp [pngSigMatch, hlen, hsig]
  have hns : PngProcess blendOnBlack memlimit_mb libpng encode in_data
      ≠ ProcessResult.NotSupported := by
    simp only [PngProcess, hmatch, if_true]
    split
    · simp
    · split
      · simp
      · split
        · simp
        · split <;> simp
  refine ⟨tryProcessors_cons_of_ne _ _ _ hns, hns, ?_⟩
  intro hfail
  simp only [PngProcess, hmatch, if_true]
  rcases hfail with hnone | ⟨d, hd, hr⟩
  · rw [hnone]
  · rw [hd]
    simp only [hr]

/-- Witness for png_signature_dispatch: the bare 8-byte signature with a
failing libpng oracle; the TIFF and JPEG probes are irrelevant. -/
theorem png_signature_dispatch_witness :
    8 ≤ kPNGMagicBytes.length ∧
    kPNGMagicBytes.take 8 = kPNGMagicBytes ∧
    tryProcessors
        [PngProcess true (-1) (fun _ => none) (fun _ _ _ => none),
          fun _ => ProcessResult.NotSupported,
          fun _ => ProcessResult.NotSupported]
        kPNGMagicBytes
      = some (PngProcess true (-1) (fun _ => none) (fun _ _ _ => none)
          kPNGMagicBytes) ∧
    PngProcess true (-1) (fun _ => none) (fun _ _ _ => none) kPNGMagicBytes
      = ProcessResult.ProcessFailed := by
  have H := png_signature_dispatch true (-1) (fun _ => none)
    (fun _ _ _ => none) (fun _ => ProcessResult.NotSupported)
    (fun _ => ProcessResult.NotSupported) kPNGMagicBytes
    (by decide) (by decide)
  exact ⟨by decide, by decide, H.1, H.2.2 (Or.inl rfl)⟩

/-- C9: on input matching neither the PNG signature nor a TIFF marker and
whose JPEG header parse fails, every probe reports NotSupported, the
dispatch loop exhausts all three with no owner, and main exits with the
unknown-file-format code 2. -/
theorem unknown_format_dispatch (blendOnBlack : Bool) (memlimit_mb : Int)
    (libpng : List Nat → Option PngDecoded)
    (pngEncode : List Nat → Nat → Nat → Option (List Nat))
    (libtiff : List Nat → Option TiffDecoded)
    (tiffEncode : List Nat → Nat → Nat → Option (List Nat))
    (readJpegHeader : List Nat → Option (Nat × Nat))
    (jpegEncode : List Nat → Option (List Nat))
    (in_data : List Nat)
    (hpng : pngSigMatch in_data = false)
    (htiff : tiffSigMatch in_data = false)
    (hjpeg : readJpegHeader in_data = none) :
    PngProcess blendOnBlack memlimit_mb libpng pngEncode in_data
      = ProcessResult.NotSupported ∧
    TiffProcess blendOnBlack memlimit_mb libtiff tiffEncode in_data
      = ProcessResult.NotSupported ∧
    JpegProcess memlimit_mb readJpegHeader jpegEncode in_data
      = ProcessResult.NotSupported ∧
    tryProcessors
        [PngProcess blendOnBlack memlimit_mb libpng pngEncode,
          TiffProcess blendOnBlack memlimit_mb libtiff tiffEncode,
          JpegProcess memlimit_mb readJpegHeader jpegEncode] in_data
      = none ∧
    mainExitCode
        [PngProcess blendOnBlack memlimit_mb libpng pngEncode,
          TiffProcess blendOnBlack memlimit_mb libtiff tiffEncode,
          JpegProcess memlimit_mb readJpegHeader jpegEncode] in_data
      = 2 := by
  have h1 : PngProcess blendOnBlack memlimit_mb libpng pngEncode in_data
      = ProcessResult.NotSupported := by
    simp [PngProcess, hpng]
  have h2 : TiffProcess blendOnBlack memlimit_mb libtiff tiffEncode in_data
      = ProcessResult.NotSupported := by
    simp [TiffProcess, htiff]
  have h3 : JpegProcess memlimit_mb readJpegHeader jpegEncode in_data
      = ProcessResult.NotSupported := by
    simp [JpegProcess, hjpeg]
  have h4 : tryProcessors
      [PngProcess blendOnBlack memlimit_mb libpng pngEncode,
        TiffProcess blendOnBlack memlimit_mb libtiff tiffEncode,
        JpegProcess memlimit_mb readJpegHeader jpegEncode] in_data
      = none := by
    rw [tryProcessors_cons_notSupported _ _ _ h1,
      tryProcessors_cons_notSupported _ _ _ h2,
      tryProcessors_cons_notSupported _ _ _ h3]
    rfl
  exact ⟨h1, h2, h3, h4, by simp [mainExitCode, h4]⟩

/-- Witness for unknown_format_dispatch on the all-zero 16-byte buffer
with a failing JPEG header parse. -/
theorem unknown_format_dispatch_witness :
    pngSigMatch exZeroBuf = false ∧
    tiffSigMatch exZeroBuf = false ∧
    tryProcessors
        [PngProcess true 6000 (fun _ => none) (fun _ _ _ => none),
          TiffProcess true 6000 (fun _ => none) (fun _ _ _ => none),
          JpegProcess 6000 (fun _ => none) (fun _ => none)] exZeroBuf
      = none ∧
    mainExitCode
        [PngProcess true 6000 (fun _ => none) (fun _ _ _ => none),
          TiffProcess true 6000 (fun _ => none) (fun _ _ _ => none),
          JpegProcess 6000 (fun _ => none) (fun _ => none)] exZeroBuf
      = 2 := by
  have H := unknown_format_dispatch true 6000 (fun _ => none)
    (fun _ _ _ => none) (fun _ => none) (fun _ _ _ => none)
    (fun _ => none) (fun _ => none) exZeroBuf
    (by decide) (by decide) rfl
  exact ⟨by decide, by decide, H.2.2.2.1, H.2.2.2.2⟩

end Guetzli
